import Mathlib

/-!
Shallow embedding of the numerical routines of this repository:
the DG evolution operator helpers in `miniapps/hypsys/lib/fe_evol.cpp`
and the driver program `examples/exNDH1.cpp`.

Real-valued quantities of the C++ code are modelled over `ℚ` so that all
definitions remain executable; external-library calls (the virtual flux
and wave-speed evaluations of `HyperbolicSystem`, the mass-matrix
multiply, and the numeric square root) are parameters of the model.
-/

open Finset

/-- A state (or coordinate) vector of length `m`, as in mfem's `Vector`. -/
abbrev Vec (m : ℕ) := Fin m → ℚ

/-- External-library interface used by `FE_Evolution::LaxFriedrichs`
(`fe_evol.cpp`): the virtual methods `EvaluateFlux` (a `NumEq × dim` flux
matrix at element `e`, quadrature point `k`, face `i`) and `GetWaveSpeed`
of the abstract `HyperbolicSystem`. -/
structure HypSystem (m d : ℕ) where
  EvaluateFlux : Vec m → ℕ → ℕ → ℕ → (Fin m → Fin d → ℚ)
  GetWaveSpeed : Vec m → Vec d → ℕ → ℕ → ℕ → ℚ

/-- `FE_Evolution::LaxFriedrichs` (fe_evol.cpp:245-261), translated
statement by statement: `Flux = EvaluateFlux(x1)`, `FluxNbr =
EvaluateFlux(x2)`, `Flux += FluxNbr`, `ws = max(GetWaveSpeed(x1,...),
GetWaveSpeed(x2,...))`, `Flux.Mult(normal, y)`,
`subtract(ws, x1, x2, diff)` (mfem: `diff = ws*(x1-x2)`), `y += diff`,
`y *= 0.5`. -/
def LaxFriedrichs (hyp : HypSystem m d) (x1 x2 : Vec m) (normal : Vec d)
    (e k i : ℕ) : Vec m :=
  let Flux := hyp.EvaluateFlux x1 e k i
  let FluxNbr := hyp.EvaluateFlux x2 e k i
  let FluxSum := fun n l => Flux n l + FluxNbr n l
  let ws := max (hyp.GetWaveSpeed x1 normal e k i)
                (hyp.GetWaveSpeed x2 normal e k i)
  let y := fun n => ∑ l, FluxSum n l * normal l
  let diff := fun n => ws * (x1 n - x2 n)
  fun n => (y n + diff n) * (1/2)

/-- The textbook formula the spec states for the Lax-Friedrichs flux,
written from the spec's words: `y = 0.5*(F(x1)+F(x2))·normal +
0.5*ws*(x1-x2)` with `ws` the larger of the two wave speeds. -/
def laxFriedrichsSpecFormula (hyp : HypSystem m d) (x1 x2 : Vec m)
    (normal : Vec d) (e k i : ℕ) : Vec m :=
  fun n =>
    (1/2) * (∑ l, (hyp.EvaluateFlux x1 e k i n l +
                   hyp.EvaluateFlux x2 e k i n l) * normal l) +
    (1/2) * max (hyp.GetWaveSpeed x1 normal e k i)
                (hyp.GetWaveSpeed x2 normal e k i) * (x1 n - x2 n)

/-- A concrete 1-equation, 1-dimensional hyperbolic system (Burgers-like
flux `F(u) = u²/2`, wave speed `|u|`), used to instantiate witnesses. -/
def burgersSystem : HypSystem 1 1 where
  EvaluateFlux := fun u _ _ _ => fun n _ => u n * u n / 2
  GetWaveSpeed := fun u _ _ _ _ => |u 0|

/-- Validation performed by the `FE_Evolution` constructor
(fe_evol.cpp:9-17) on the name of the finite element collection, modelled
on C strings as lists of characters: `strncmp(fecol, "L2", 2)` nonzero
aborts with the L2-conformity message, then `strncmp(fecol, "L2_T2", 5)`
nonzero aborts with the Bernstein-basis message; `Except.error` stands
for `MFEM_ABORT` (no object is produced), `Except.ok` for reaching the
rest of the constructor. `strncmp(s, t, n) == 0` is `s.take n = t.take n`
for NUL-free C strings. -/
def fecolCheck (name : List Char) : Except String Unit :=
  if name.take 2 ≠ "L2".toList then
    Except.error "FiniteElementSpace must be L2 conforming (DG)."
  else if name.take 5 ≠ "L2_T2".toList then
    Except.error "Shape functions must be represented in Bernstein basis."
  else
    Except.ok ()

/-- C1: `FE_Evolution::LaxFriedrichs` computes the textbook numerical
flux `y = 0.5*(F(x1)+F(x2))·normal + 0.5*ws*(x1-x2)`, where `F` is
`hyp->EvaluateFlux` and `ws` the maximum of the two wave speeds, for
every pair of state vectors and every unit normal. -/
theorem laxFriedrichs_eq_spec_formula {m d : ℕ} (hyp : HypSystem m d)
    (x1 x2 : Vec m) (normal : Vec d) (e k i : ℕ)
    (hunit : ∑ l, normal l ^ 2 = 1) :
    LaxFriedrichs hyp x1 x2 normal e k i =
      laxFriedrichsSpecFormula hyp x1 x2 normal e k i := by
  funext n
  simp only [LaxFriedrichs, laxFriedrichsSpecFormula]
  ring

/-- Witness for C1 at a concrete input: the Burgers-like system, states
`x1 = 3`, `x2 = 1`, unit normal `1`. -/
theorem laxFriedrichs_eq_spec_formula_witness :
    (∑ l : Fin 1, (fun _ : Fin 1 => (1:ℚ)) l ^ 2 = 1) ∧
    LaxFriedrichs burgersSystem (fun _ => 3) (fun _ => 1) (fun _ => 1) 0 0 0 =
      laxFriedrichsSpecFormula burgersSystem (fun _ => 3) (fun _ => 1)
        (fun _ => 1) 0 0 0 :=
  ⟨by simp, laxFriedrichs_eq_spec_formula burgersSystem (fun _ => 3)
    (fun _ => 1) (fun _ => 1) 0 0 0 (by simp)⟩

/-- C9: the Lax-Friedrichs flux is consistent: applied to twice the same
state `u` it returns exactly `EvaluateFlux(u)·normal`, the dissipation
term vanishing. -/
theorem laxFriedrichs_consistent {m d : ℕ} (hyp : HypSystem m d)
    (u : Vec m) (normal : Vec d) (e k i : ℕ) :
    LaxFriedrichs hyp u u normal e k i =
      fun n => ∑ l, hyp.EvaluateFlux u e k i n l * normal l := by
  funext n
  simp only [LaxFriedrichs]
  rw [show (∑ l, (hyp.EvaluateFlux u e k i n l + hyp.EvaluateFlux u e k i n l)
        * normal l)
      = ∑ l, (hyp.EvaluateFlux u e k i n l * normal l +
              hyp.EvaluateFlux u e k i n l * normal l) from
    Finset.sum_congr rfl (fun l _ => by ring)]
  rw [Finset.sum_add_distrib]
  ring

/-- C2: the `FE_Evolution` constructor rejects every finite element
collection whose name does not begin with `"L2"`: it aborts with the
L2-conformity message and produces no object. -/
theorem fecolCheck_rejects_non_L2 (name : List Char)
    (h : name.take 2 ≠ "L2".toList) :
    fecolCheck name =
      Except.error "FiniteElementSpace must be L2 conforming (DG)." := by
  have h2 : name.take 2 ≠ ['L', '2'] := by simpa using h
  simp [fecolCheck, h2]

/-- Witness for C2 at the concrete collection name `"H1_2D_P1"`. -/
theorem fecolCheck_rejects_non_L2_witness :
    ("H1_2D_P1".toList.take 2 ≠ "L2".toList) ∧
    fecolCheck "H1_2D_P1".toList =
      Except.error "FiniteElementSpace must be L2 conforming (DG)." :=
  ⟨by decide, fecolCheck_rejects_non_L2 "H1_2D_P1".toList (by decide)⟩

/-- C8: the constructor aborts for every collection name that does not
begin with `"L2_T2"` — even an L2-conforming (DG) name is rejected unless
its first five characters are `"L2_T2"` (the Bernstein basis tag);
equivalently, the validation succeeds iff the name begins with
`"L2_T2"`. -/
theorem fecolCheck_ok_iff_L2_T2 (name : List Char) :
    fecolCheck name = Except.ok () ↔ name.take 5 = "L2_T2".toList := by
  have hlit : ("L2_T2".toList = ['L', '2', '_', 'T', '2']) := by decide
  rw [hlit]
  constructor
  · intro h
    by_cases h2 : name.take 2 = ['L', '2']
    · by_cases h5 : name.take 5 = ['L', '2', '_', 'T', '2']
      · exact h5
      · simp [fecolCheck, h2, h5] at h
    · simp [fecolCheck, h2] at h
  · intro h5
    have h2 : name.take 2 = ['L', '2'] := by
      have h22 : (name.take 5).take 2 = (['L', '2', '_', 'T', '2']).take 2 :=
        by rw [h5]
      simpa [List.take_take] using h22
    simp [fecolCheck, h2, h5]

/-- Mutable state of `FE_Evolution` touched by `ConvergenceCheck`: the
member vectors `uOld` and `z` (fe_evol.hpp). -/
structure EvolState (sz : ℕ) where
  uOld : Vec sz
  z : Vec sz

/-- `FE_Evolution::ConvergenceCheck` (fe_evol.cpp:263-286). External
pieces are parameters: `massMult` is `MassMat->Mult`, `lumped` the
diagonal `LumpedMassMat`, `sqrtFn` the C library square root (`Norml2`
is `sqrtFn` of the sum of squares). The code sets `z = u - uOld`; in the
non-steady-state branch it overwrites `uOld` with `MassMat*z` and takes
`res = Norml2(uOld)/dt`, in the steady-state branch
`res = sqrt(sum (LumpedMassMat(i)*z(i))^2)/dt`; finally `uOld = u`.
Returns the residual and the new state. -/
def ConvergenceCheck (steadyState : Bool) (massMult : Vec sz → Vec sz)
    (lumped : Vec sz) (sqrtFn : ℚ → ℚ) (dt tol : ℚ) (u : Vec sz)
    (s : EvolState sz) : ℚ × EvolState sz :=
  let z1 := fun j => u j - s.uOld j
  if steadyState = false then
    let uOld1 := massMult z1
    let res := sqrtFn (∑ j, uOld1 j ^ 2) / dt
    (res, ⟨u, z1⟩)
  else
    let res := sqrtFn (∑ j, (lumped j * z1 j) ^ 2) / dt
    (res, ⟨u, z1⟩)

/-- C10: `ConvergenceCheck` never reads its `tol` parameter: two calls
differing only in `tol` return the same residual and leave the object in
the same state, and after every call the stored `uOld` equals the
argument `u`. -/
theorem convergenceCheck_tol_independent {sz : ℕ} (steadyState : Bool)
    (massMult : Vec sz → Vec sz) (lumped : Vec sz) (sqrtFn : ℚ → ℚ)
    (dt tol1 tol2 : ℚ) (u : Vec sz) (s : EvolState sz) :
    ConvergenceCheck steadyState massMult lumped sqrtFn dt tol1 u s =
      ConvergenceCheck steadyState massMult lumped sqrtFn dt tol2 u s ∧
    (ConvergenceCheck steadyState massMult lumped sqrtFn dt tol1 u s).2.uOld
      = u := by
  refine ⟨rfl, ?_⟩
  cases steadyState <;> rfl

/-- Observable actions of `main` in `examples/exNDH1.cpp`, in source
order: option parsing, rank-0 prints, serial/parallel mesh construction,
finite element space construction, operator assembly, linear solve, L2
error computation, per-rank output files, GLVis socket traffic, and MPI
finalization. -/
inductive Event where
  | parseOptions
  | printUsage (rank : ℕ)
  | printOptions (rank : ℕ)
  | buildSerialMesh (file : String)
  | buildParMesh
  | buildFESpaces
  | printUnknowns (rank : ℕ)
  | assembleOperators
  | solveSystem (usePA : Bool)
  | computeError
  | printError (rank : ℕ)
  | writeMeshFile (rank : ℕ)
  | writeSolFile (rank : ℕ)
  | openSocket (host : String) (port : ℕ)
  | sendSolution
  | mpiFinalize
deriving DecidableEq

/-- `setfill('0') << setw(6) << myid`: the rank printed in decimal,
left-padded with zeros to at least six characters. -/
def pad6 (n : ℕ) : String :=
  let s := toString n
  String.mk (List.replicate (6 - s.length) '0') ++ s

/-- The mesh output file name `"mesh." << setfill('0') << setw(6) << myid`
(exNDH1.cpp:245). -/
def meshName (rank : ℕ) : String := "mesh." ++ pad6 rank

/-- The solution output file name `"sol." << setfill('0') << setw(6) <<
myid` (exNDH1.cpp:246). -/
def solName (rank : ℕ) : String := "sol." ++ pad6 rank

/-- The event trace and exit code of `main` in `exNDH1.cpp`, translated
from the source control flow: after `args.Parse()`, if `!args.Good()`
the program prints usage on rank 0 only, finalizes MPI and returns 1;
otherwise it prints options on rank 0, reads the serial mesh, builds the
parallel mesh, builds the ND and H1 spaces, prints the unknown count on
rank 0, assembles the bilinear forms (`pa` selecting partial assembly),
solves with PCG, computes and prints (rank 0) the L2 error, writes the
per-rank mesh and solution files unconditionally, streams to the GLVis
socket iff `visualization`, finalizes MPI and returns 0. `static_cond`
only toggles `EnableStaticCondensation` inside assembly and produces no
separate observable action. -/
def mainTrace (good : Bool) (myid : ℕ)
    (visualization pa static_cond : Bool) (meshFile : String) :
    List Event × ℕ :=
  if good = false then
    (Event.parseOptions ::
      ((if myid = 0 then [Event.printUsage myid] else []) ++
       [Event.mpiFinalize]), 1)
  else
    (Event.parseOptions ::
      ((if myid = 0 then [Event.printOptions myid] else []) ++
       [Event.buildSerialMesh meshFile, Event.buildParMesh,
        Event.buildFESpaces] ++
       (if myid = 0 then [Event.printUnknowns myid] else []) ++
       [Event.assembleOperators, Event.solveSystem pa,
        Event.computeError] ++
       (if myid = 0 then [Event.printError myid] else []) ++
       [Event.writeMeshFile myid, Event.writeSolFile myid] ++
       (if visualization then
          [Event.openSocket "localhost" 19916, Event.sendSolution]
        else []) ++
       [Event.mpiFinalize]), 0)

/-- The seven steps named by the spec's workflow sentence: parse options,
build mesh, build function spaces, assemble operator, solve, compute
error, write output. -/
def isMainStep : Event → Bool
  | Event.parseOptions => true
  | Event.buildSerialMesh _ => true
  | Event.buildFESpaces => true
  | Event.assembleOperators => true
  | Event.solveSystem _ => true
  | Event.computeError => true
  | Event.writeMeshFile _ => true
  | Event.writeSolFile _ => true
  | _ => false

/-- One `args.AddOption` registration: enable flag, long form, and for
boolean options the disable flag and its long form. -/
structure CmdOption where
  shortFlag : String
  longFlag : String
  disableShort : Option String
  disableLong : Option String
deriving DecidableEq

/-- The `args.AddOption` calls of `exNDH1.cpp` (lines 54-65), in source
order: mesh file, polynomial order, static condensation toggle, partial
assembly toggle, visualization toggle. -/
def registeredOptions : List CmdOption :=
  [⟨"-m", "--mesh", none, none⟩,
   ⟨"-o", "--order", none, none⟩,
   ⟨"-sc", "--static-condensation",
    some "-no-sc", some "--no-static-condensation"⟩,
   ⟨"-pa", "--partial-assembly",
    some "-no-pa", some "--no-partial-assembly"⟩,
   ⟨"-vis", "--visualization",
    some "-no-vis", some "--no-visualization"⟩]

/-- C4: exactly five command-line options are registered with the
parser, with the enable flags `-m`, `-o`, `-sc`, `-pa`, `-vis` (the
boolean ones carrying `-no-` disable forms). -/
theorem registeredOptions_spec :
    registeredOptions.length = 5 ∧
    registeredOptions.map CmdOption.shortFlag =
      ["-m", "-o", "-sc", "-pa", "-vis"] ∧
    registeredOptions.map CmdOption.disableShort =
      [none, none, some "-no-sc", some "-no-pa", some "-no-vis"] := by
  refine ⟨rfl, rfl, rfl⟩

/-- C3: when option parsing fails, `main` prints the usage message on
rank 0 only, finalizes MPI and returns 1, without constructing a mesh,
a finite element space, or an operator. -/
theorem mainTrace_parse_failure (myid : ℕ)
    (visualization pa static_cond : Bool) (meshFile : String) :
    (mainTrace false myid visualization pa static_cond meshFile).2 = 1 ∧
    (Event.printUsage myid ∈
      (mainTrace false myid visualization pa static_cond meshFile).1 ↔
        myid = 0) ∧
    (∀ f, Event.buildSerialMesh f ∉
      (mainTrace false myid visualization pa static_cond meshFile).1) ∧
    Event.buildParMesh ∉
      (mainTrace false myid visualization pa static_cond meshFile).1 ∧
    Event.buildFESpaces ∉
      (mainTrace false myid visualization pa static_cond meshFile).1 ∧
    Event.assembleOperators ∉
      (mainTrace false myid visualization pa static_cond meshFile).1 ∧
    Event.mpiFinalize ∈
      (mainTrace false myid visualization pa static_cond meshFile).1 := by
  by_cases h : myid = 0 <;> simp [mainTrace, h]

/-- C5: on every successful run, each rank writes exactly one mesh file
and exactly one solution file, unconditionally; the GLVis socket is
opened and the solution sent over it iff visualization is enabled. The
file names are `"mesh."`/`"sol."` followed by the zero-padded rank. -/
theorem mainTrace_output_files (myid : ℕ)
    (visualization pa static_cond : Bool) (meshFile : String) :
    ((mainTrace true myid visualization pa static_cond meshFile).1.count
      (Event.writeMeshFile myid) = 1) ∧
    ((mainTrace true myid visualization pa static_cond meshFile).1.count
      (Event.writeSolFile myid) = 1) ∧
    (Event.openSocket "localhost" 19916 ∈
      (mainTrace true myid visualization pa static_cond meshFile).1 ↔
        visualization = true) ∧
    (Event.sendSolution ∈
      (mainTrace true myid visualization pa static_cond meshFile).1 ↔
        visualization = true) ∧
    meshName myid = "mesh." ++ pad6 myid ∧
    solName myid = "sol." ++ pad6 myid := by
  by_cases h : myid = 0 <;> cases visualization <;>
    simp [mainTrace, h, meshName, solName, List.count_cons]

/-- C6: on every successful run the workflow steps happen in the stated
order — parse options, build the mesh, build the finite element spaces,
assemble the operators, solve, compute the error, write the output
files — each exactly once: filtering the trace to these steps yields
exactly that sequence. -/
theorem mainTrace_step_order (myid : ℕ)
    (visualization pa static_cond : Bool) (meshFile : String) :
    ((mainTrace true myid visualization pa static_cond meshFile).1.filter
      isMainStep) =
    [Event.parseOptions, Event.buildSerialMesh meshFile,
     Event.buildFESpaces, Event.assembleOperators, Event.solveSystem pa,
     Event.computeError, Event.writeMeshFile myid,
     Event.writeSolFile myid] := by
  by_cases h : myid = 0 <;> cases visualization <;>
    simp [mainTrace, h, isMainStep, List.filter]
